import Mathlib

/-!
Shallow embedding of the delivery-route planner front-end.

The state handlers (`handleMapClick`, `handleRemoveLocation`,
`handleCalculateRoute`, `handleImportOrders`, `handleReset`, the
`useState` initializers) are translated from the application component;
`optimizeRouteWithGemini`, `fetchRouteData` and `translateManeuver` from
the service module.  External calls (the generative-AI service, the
geocoding service, the road-routing mirrors) are modelled as explicit
response parameters: an `Except`/`Option` input stands for the outcome
of the corresponding `await`, and `Math.random()` draws are passed in as
rational parameters.  JS numbers are modelled as `ℚ`; a JS string field
that may be `undefined` is `Option String`; `isDepot?: boolean` is a
`Bool` (JS truthiness of `undefined` and `false` coincide).
-/

namespace SmartRoute

structure Coordinates where
  lat : ℚ
  lng : ℚ
deriving Repr, DecidableEq

/-- Structure `DeliveryLocation` from the type declarations. -/
structure DeliveryLocation where
  id : String
  name : String
  coordinates : Coordinates
  address : Option String := none
  isDepot : Bool := false
  customerName : Option String := none
  phoneNumber : Option String := none
  zone : Option String := none
  status : Option String := none
deriving Repr, DecidableEq

structure OptimizedRouteStats where
  totalDistanceKm : ℚ
  totalTimeMinutes : ℚ
  fuelCostTHB : ℚ
  tollCostTHB : ℚ
  totalCostTHB : ℚ
  advice : String
  vehicleType : Option String := none
deriving Repr, DecidableEq

structure RouteSegment where
  fromId : String
  toId : String
  distanceKm : ℚ
  timeMinutes : ℚ
deriving Repr, DecidableEq

structure Maneuver where
  type : String
  modifier : Option String := none
deriving Repr, DecidableEq

structure NavigationStep where
  instruction : String
  distanceMeters : ℚ
  durationSeconds : ℚ
  maneuver : Maneuver
deriving Repr, DecidableEq

/-- Structure `RouteOptimizationResult`.  A JSON response missing `optimizedOrder`
behaves everywhere downstream exactly like `[]` (both are falsy-or-empty
at every use site), so the field is a plain list. -/
structure RouteOptimizationResult where
  optimizedOrder : List String
  segments : List RouteSegment
  stats : OptimizedRouteStats
  pathPolyline : Option (List Coordinates) := none
  navigationInstructions : Option (List NavigationStep) := none
deriving Repr, DecidableEq

/-- The pieces of component state the in-scope handlers read or write. -/
structure AppState where
  locations : List DeliveryLocation
  optimizedRoute : Option RouteOptimizationResult := none
  selectedId : Option String := none
  error : Option String := none
deriving Repr, DecidableEq

/-- Embedding of `handleMapClick`: reject at 30 stops with an error, otherwise append
a new location (first one becomes the depot), select it and clear the
route result. -/
def handleMapClick (s : AppState) (coords : Coordinates) (newId : String) :
    AppState :=
  if s.locations.length ≥ 30 then
    { s with error := some "เพิ่มจุดส่งได้สูงสุด 30 จุด เพื่อประสิทธิภาพสูงสุด" }
  else
    let isFirst := s.locations.length = 0
    let newLocation : DeliveryLocation :=
      { id := newId
        name := if isFirst then "คลังสินค้า (Start)"
                else "จุดส่งสินค้า " ++ toString s.locations.length
        coordinates := coords
        isDepot := isFirst
        zone := some (if isFirst then "HQ" else "ทั่วไป") }
    { s with locations := s.locations ++ [newLocation]
             selectedId := some newId
             optimizedRoute := none
             error := none }

/-- Character-level prefix test: the embedding of the JS
`s.startsWith(p)` (Lean's own byte-based `String.startsWith` computes
the same Bool but is defined by well-founded recursion and does not
reduce in the kernel). -/
def jsStartsWith (s p : String) : Bool := p.data.isPrefixOf s.data

/-- Character-level suffix test: the embedding of a JS suffix check. -/
def jsEndsWith (s p : String) : Bool := p.data.isSuffixOf s.data

/-- The `.map((loc, idx) => ...)` renumbering pass of
`handleRemoveLocation`, written as an index-carrying recursion: a
non-depot location whose name starts with the auto pattern is renamed to
its position `idx` in the full remaining list. -/
def renumber : Nat → List DeliveryLocation → List DeliveryLocation
  | _, [] => []
  | idx, loc :: rest =>
    (if loc.isDepot then loc
     else if jsStartsWith loc.name "จุดส่งสินค้า" then
       { loc with name := "จุดส่งสินค้า " ++ toString idx }
     else loc) :: renumber (idx + 1) rest

/-- The in-place mutation `newLocations[0].isDepot = true;
newLocations[0].name = "คลังสินค้า (Start)"` of `handleRemoveLocation`,
as a functional head update (no-op on the empty list, matching the
`newLocations.length > 0` guard). -/
def promoteHead : List DeliveryLocation → List DeliveryLocation
  | [] => []
  | f :: fs => { f with isDepot := true, name := "คลังสินค้า (Start)" } :: fs

/-- The list computation inside `handleRemoveLocation`: filter out the
removed id; if survivors remain and the first location was the one
removed (`locations[0].id === id`, only evaluated — via `head?` here —
when the filtered list is non-empty), overwrite the first survivor's
depot flag and name; then renumber. -/
def removeLocation (locations : List DeliveryLocation) (id : String) :
    List DeliveryLocation :=
  let newLocations := locations.filter (fun l => l.id != id)
  let promoted :=
    if newLocations.length > 0 ∧ locations.head?.map DeliveryLocation.id = some id
    then promoteHead newLocations
    else newLocations
  renumber 0 promoted

/-- Embedding of `handleRemoveLocation` at state level: update the list, clear the
route result, drop the selection if it pointed at the removed stop. -/
def handleRemoveLocation (s : AppState) (id : String) : AppState :=
  { s with locations := removeLocation s.locations id
           optimizedRoute := none
           selectedId := if s.selectedId = some id then none else s.selectedId }

/-- Embedding of `handleReset` (the confirmed branch): clear everything. -/
def handleReset (s : AppState) : AppState :=
  { s with locations := []
           optimizedRoute := none
           error := none
           selectedId := none }

/-- Embedding of `translateManeuver`: OSRM maneuver type/modifier/road name to a Thai
instruction string.  In JS the `switch` default also catches an
`undefined` modifier, hence the final catch-all match arm. -/
def translateManeuver (type : String) (modifier : Option String)
    (name : String) : String :=
  let roadName := if name != "" then "เข้าสู่ " ++ name else ""
  if type = "depart" then "เริ่มต้นเดินทาง " ++ roadName
  else if type = "arrive" then "ถึงจุดหมาย"
  else if type = "roundabout" then
    "ที่วงเวียน ใช้ทางออก " ++ modifier.getD "" ++ " " ++ roadName
  else
    match modifier with
    | some "left" => "เลี้ยวซ้าย " ++ roadName
    | some "right" => "เลี้ยวขวา " ++ roadName
    | some "slight left" => "เบี่ยงซ้ายเล็กน้อย " ++ roadName
    | some "slight right" => "เบี่ยงขวาเล็กน้อย " ++ roadName
    | some "sharp left" => "เลี้ยวซ้ายหักศอก " ++ roadName
    | some "sharp right" => "เลี้ยวขวาหักศอก " ++ roadName
    | some "uturn" => "กลับรถ"
    | some "straight" => "ตรงไป " ++ roadName
    | _ => (type ++ " " ++ roadName).trim

/-- One raw OSRM turn step (`leg.steps[j]`), as read by `fetchRouteData`. -/
structure OSRMStepRaw where
  maneuver : Maneuver
  name : String
  distance : ℚ
  duration : ℚ
deriving Repr, DecidableEq

/-- One OSRM leg; `steps := none` models a response object without a
`steps` field (the source guards on `if (leg.steps)`; note a present but
empty array is truthy in JS, hence `some []` and `none` differ here). -/
structure OSRMLeg where
  steps : Option (List OSRMStepRaw) := none
deriving Repr, DecidableEq

/-- The first usable OSRM route candidate: GeoJSON coordinates as
`[lng, lat]` pairs, plus legs.  A response with a falsy `legs` field
behaves like `legs = []` (the `if (route.legs)` guard just skips the
loop), so `legs` is a plain list. -/
structure OSRMRoute where
  coordinates : List (ℚ × ℚ)
  legs : List OSRMLeg
deriving Repr, DecidableEq

/-- Translation of one raw step into a `NavigationStep` (the body of the
`leg.steps.map(...)` in `fetchRouteData`). -/
def translateStep (s : OSRMStepRaw) : NavigationStep :=
  { instruction := translateManeuver s.maneuver.type s.maneuver.modifier s.name
    distanceMeters := s.distance
    durationSeconds := s.duration
    maneuver := s.maneuver }

/-- The synthetic marker step pushed after leg `legIndex` (with
`n = legIndex + 1`) when more legs follow. -/
def arrivalMarker (n : Nat) : NavigationStep :=
  { instruction := "ถึงจุดส่งสินค้าที่ " ++ toString n
    distanceMeters := 0
    durationSeconds := 0
    maneuver := { type := "arrive", modifier := none } }

/-- The `route.legs.forEach((leg, legIndex) => ...)` accumulation of
`fetchRouteData`, as an index-carrying recursion; `total` is
`route.legs.length`. -/
def flattenAux (total : Nat) : Nat → List OSRMLeg → List NavigationStep
  | _, [] => []
  | idx, leg :: rest =>
    (match leg.steps with
     | none => []
     | some steps =>
       steps.map translateStep ++
         (if idx < total - 1 then [arrivalMarker (idx + 1)] else [])) ++
    flattenAux total (idx + 1) rest

/-- All legs' steps flattened into one sequence, with arrival markers
between legs. -/
def flattenSteps (legs : List OSRMLeg) : List NavigationStep :=
  flattenAux legs.length 0 legs

/-- Embedding of `fetchRouteData`: the mirror loop is modelled by its outcome — the
first usable route, or `none` when every mirror failed, in which case
geometry and steps are both empty. -/
def fetchRouteData (road : Option OSRMRoute) :
    List Coordinates × List NavigationStep :=
  match road with
  | none => ([], [])
  | some route =>
    (route.coordinates.map (fun c => { lat := c.2, lng := c.1 }),
     flattenSteps route.legs)

/-- The parsed JSON body of a successful optimization response.  A body
whose `stats` object is missing would make the unconditional
`result.stats.vehicleType = ...` write throw, which lands in the same
caught-error path as a transport failure, so it is folded into the
`Except.error` case of the response parameter. -/
structure GeminiRouteResponse where
  optimizedOrder : List String
  segments : Option (List RouteSegment) := none
  stats : OptimizedRouteStats
deriving Repr, DecidableEq

/-- The depot-first normalization of `optimizedOrder` (the two nested
`if`s over the parsed result): when the order is non-empty, does not
start with the depot id and does not contain it at all, the depot id is
prepended; in every other case the order is returned unchanged. -/
def normalizeOrder (order : List String) (depotId : String) : List String :=
  if order.length > 0 ∧ order.head? ≠ some depotId then
    if depotId ∉ order then depotId :: order else order
  else order

/-- Embedding of `optimizeRouteWithGemini`.  `resp` is the outcome of the AI call
including JSON parsing (`Except.error` for a thrown transport/parse
error), `road` the outcome of the OSRM mirror loop.  Fewer than two
locations throws; otherwise the response is normalized, stamped with the
vehicle type, and road geometry/steps are attached when at least two of
the ordered ids resolve against the current locations. -/
def optimizeRouteWithGemini (locations : List DeliveryLocation)
    (vehicleType : String) (resp : Except String GeminiRouteResponse)
    (road : Option OSRMRoute) : Except String RouteOptimizationResult :=
  match locations with
  | [] | [_] => Except.error "ต้องมีจุดส่งสินค้าอย่างน้อย 2 จุดเพื่อคำนวณเส้นทาง"
  | l0 :: _ :: _ =>
    match resp with
    | Except.error e => Except.error e
    | Except.ok r =>
      let depot := (locations.find? (fun l => l.isDepot)).getD l0
      let stats := { r.stats with vehicleType := some vehicleType }
      let order := normalizeOrder r.optimizedOrder depot.id
      let segments := r.segments.getD []
      let orderedLocations :=
        order.filterMap (fun oid => locations.find? (fun l => l.id = oid))
      Except.ok
        (if order.length > 0 ∧ orderedLocations.length > 1 then
          { optimizedOrder := order, segments := segments
            stats := stats, pathPolyline := some (fetchRouteData road).1
            navigationInstructions := some (fetchRouteData road).2 }
        else
          { optimizedOrder := order, segments := segments, stats := stats })

/-- Embedding of `handleCalculateRoute`: no-op below two stops; otherwise clear the
error, and either store the new result or keep the previous result and
surface a translated message (with the generic fallback when the thrown
error has a falsy message). -/
def handleCalculateRoute (s : AppState) (vehicleType : String)
    (resp : Except String GeminiRouteResponse) (road : Option OSRMRoute) :
    AppState :=
  if s.locations.length < 2 then s
  else
    match optimizeRouteWithGemini s.locations vehicleType resp road with
    | Except.ok result =>
      { s with optimizedRoute := some result, error := none }
    | Except.error e =>
      { s with error := some ("ไม่สามารถคำนวณเส้นทางได้: " ++
          (if e != "" then e else "เกิดข้อผิดพลาดจากระบบ AI")) }

/-- One extracted order, per the extraction response schema
(`customerName`, `address`, `zone` required, `phoneNumber` optional). -/
structure ParsedOrder where
  customerName : String
  phoneNumber : Option String := none
  address : String
  zone : String
deriving Repr, DecidableEq

/-- The outcome of the one geocoding call made for an order: a match
(first result's coordinates), an empty result list (`noMatch`, carrying
the two `Math.random()` draws used for the jittered fallback), or a
thrown transport/parse failure. -/
inductive GeocodeOutcome
  | success (lat lng : ℚ)
  | noMatch (rLat rLng : ℚ)
  | failure
deriving Repr, DecidableEq

/-- The geocoding loop of `handleImportOrders`: index-carrying recursion
over the orders paired with their geocoding outcomes, `ids` supplying
the generated ids.  A match pushes a stop with the real coordinates; an
empty result pushes the jittered fallback stop with the unresolved name
marker and zone; a thrown failure is caught, logged and pushes nothing. -/
def buildImportedStops (ids : Nat → String) (isFirst : Bool) :
    Nat → List (ParsedOrder × GeocodeOutcome) → List DeliveryLocation
  | _, [] => []
  | i, (order, outcome) :: rest =>
    let isDepot := isFirst && i == 0
    (match outcome with
     | GeocodeOutcome.success lat lng =>
       [{ id := ids i
          name := if order.customerName != "" then order.customerName
                  else "จุดส่ง " ++ toString (i + 1)
          coordinates := { lat := lat, lng := lng }
          address := some order.address
          customerName := some order.customerName
          phoneNumber := order.phoneNumber
          zone := some order.zone
          isDepot := isDepot }]
     | GeocodeOutcome.noMatch rLat rLng =>
       [{ id := ids i
          name := (if order.customerName != "" then order.customerName
                   else "Unknown") ++ " (ไม่พบพิกัด)"
          coordinates := { lat := 13.7563 + rLat * 0.01
                           lng := 100.5018 + rLng * 0.01 }
          address := some order.address
          customerName := some order.customerName
          phoneNumber := order.phoneNumber
          zone := some "Unresolved"
          isDepot := isDepot }]
     | GeocodeOutcome.failure => []) ++
    buildImportedStops ids isFirst (i + 1) rest

/-- Embedding of `handleImportOrders`.  `parsedOrders` is the outcome of the
extraction call (`Except.error` for a throw); an empty array throws
"no orders found" into the same catch.  Outcomes are zipped with the
extracted orders.  The produced stops are appended in one batch; note
the success path touches neither `optimizedRoute` nor `error`. -/
def handleImportOrders (s : AppState)
    (parsedOrders : Except String (List ParsedOrder))
    (outcomes : List GeocodeOutcome) (ids : Nat → String) : AppState :=
  match parsedOrders with
  | Except.error e =>
    { s with error := some ("การนำเข้าข้อมูลล้มเหลว: " ++ e) }
  | Except.ok orders =>
    if orders.length = 0 then
      { s with
          error := some ("การนำเข้าข้อมูลล้มเหลว: " ++ "ไม่พบข้อมูลออเดอร์ในข้อความ") }
    else
      let isFirst := s.locations.length = 0
      let newLocations := buildImportedStops ids isFirst 0 (orders.zip outcomes)
      { s with locations := s.locations ++ newLocations }

/-- The shape of the persisted record, as read back: both fields may be
missing from the parsed JSON object. -/
structure PersistedData where
  locations : Option (List DeliveryLocation) := none
  optimizedRoute : Option RouteOptimizationResult := none
deriving Repr, DecidableEq

/-- The `useState` initializer for `locations`: `savedData` is the value
under the storage key (`none` when the key is missing), `parse` the
outcome of `JSON.parse` (`none` models a thrown parse error, which the
`catch` swallows); `parsed.locations || []` defaults a missing field. -/
def initLocations (savedData : Option String)
    (parse : String → Option PersistedData) : List DeliveryLocation :=
  match savedData with
  | none => []
  | some s =>
    match parse s with
    | none => []
    | some p => p.locations.getD []

/-- The `useState` initializer for `optimizedRoute`; `parsed.optimizedRoute
|| null` maps a missing field to `null`. -/
def initRoute (savedData : Option String)
    (parse : String → Option PersistedData) :
    Option RouteOptimizationResult :=
  match savedData with
  | none => none
  | some s =>
    match parse s with
    | none => none
    | some p => p.optimizedRoute

/-- Modelled from the spec (for the refinement comparison in the
flattening claim): "flattens all legs' turn steps into one sequence,
inserting a synthetic arrival marker step between legs" — the translated
step lists joined with exactly one marker between consecutive legs,
markers numbered from `n`. -/
def specFlattenLegs : Nat → List (List NavigationStep) → List NavigationStep
  | _, [] => []
  | _, [l] => l
  | n, l :: l' :: rest => l ++ arrivalMarker n :: specFlattenLegs (n + 1) (l' :: rest)

/-- Recognizer for the empty-geocoding-result outcome. -/
def GeocodeOutcome.isNoMatch : GeocodeOutcome → Bool
  | GeocodeOutcome.noMatch _ _ => true
  | _ => false

/-- Recognizer for the thrown-geocoding-call outcome. -/
def GeocodeOutcome.isFailure : GeocodeOutcome → Bool
  | GeocodeOutcome.failure => true
  | _ => false

/-- A stop whose zone was forced to the `Unresolved` marker. -/
def isUnresolvedStop (l : DeliveryLocation) : Bool :=
  decide (l.zone = some "Unresolved")

/-- Concrete fixture: a depot stop as `handleMapClick` creates it first. -/
def locA : DeliveryLocation :=
  { id := "a", name := "คลังสินค้า (Start)", coordinates := { lat := 1, lng := 2 }
    isDepot := true, zone := some "HQ" }

/-- Concrete fixture: the second map-click stop (auto label index 1). -/
def locB : DeliveryLocation :=
  { id := "b", name := "จุดส่งสินค้า 1", coordinates := { lat := 3, lng := 4 }
    zone := some "ทั่วไป" }

/-- Concrete fixture: the third map-click stop (auto label index 2). -/
def locC : DeliveryLocation :=
  { id := "c", name := "จุดส่งสินค้า 2", coordinates := { lat := 5, lng := 6 }
    zone := some "ทั่วไป" }

/-- Concrete fixture: a stored route result. -/
def dummyRoute : RouteOptimizationResult :=
  { optimizedOrder := ["a", "b"], segments := []
    stats := { totalDistanceKm := 0, totalTimeMinutes := 0, fuelCostTHB := 0
               tollCostTHB := 0, totalCostTHB := 0, advice := "ok" } }

/-- Concrete fixture: a two-stop state holding a route result. -/
def stateAB : AppState :=
  { locations := [locA, locB], optimizedRoute := some dummyRoute }

/-- Concrete fixture: one extracted order. -/
def ordSomchai : ParsedOrder :=
  { customerName := "Somchai", address := "12 Main Rd", zone := "Bang Na" }

/-- Concrete fixture: a deterministic id supply for import runs. -/
def idsFn : Nat → String := fun i => "import-" ++ toString i

/-- The fields of a `DeliveryLocation` other than `name` and `isDepot`,
for frame-condition statements. -/
def frameFields (l : DeliveryLocation) :
    String × Coordinates × Option String × Option String × Option String ×
      Option String × Option String :=
  (l.id, l.coordinates, l.address, l.customerName, l.phoneNumber, l.zone,
   l.status)

/-! ### Helper lemmas -/

theorem renumber_map_frameFields (n : Nat) (xs : List DeliveryLocation) :
    (renumber n xs).map frameFields = xs.map frameFields := by
  induction xs generalizing n with
  | nil => rfl
  | cons x xs ih =>
    simp only [renumber, List.map_cons, ih]
    congr 1
    split
    · rfl
    · split <;> rfl

theorem renumber_isDepot_false (n : Nat) (xs : List DeliveryLocation)
    (h : ∀ l ∈ xs, l.isDepot = false) :
    ∀ l ∈ renumber n xs, l.isDepot = false := by
  induction xs generalizing n with
  | nil => intro l hl; cases hl
  | cons x xs ih =>
    intro l hl
    rcases List.mem_cons.mp hl with hl | hl
    · have hx := h x (by simp)
      split at hl
      · simp_all
      · split at hl <;> simp_all
    · exact ih (n + 1) (fun l' hl' => h l' (by simp [hl'])) l hl

/-! ### C1: depot-first normalization -/

/-- C1 counterexample: for the response order `["b", "d"]` with depot id
`"d"` (depot present at position 1, not 0), normalization returns the
order unchanged — the depot id is NOT moved to index 0, contradicting
the claim that a depot id present at a position other than 0 is moved to
the front. -/
theorem normalizeOrder_keeps_misplaced_depot :
    normalizeOrder ["b", "d"] "d" = ["b", "d"] ∧
      (normalizeOrder ["b", "d"] "d").head? ≠ some "d" := by
  constructor
  · rfl
  · decide

/-- C1 (amended): normalization prepends the depot id exactly when the
returned order is non-empty and omits the depot id everywhere; whenever
the depot id already occurs anywhere in the order (index 0 or not), and
also when the order is empty, the order is returned unchanged. -/
theorem normalizeOrder_cases (order : List String) (depotId : String) :
    (depotId ∈ order → normalizeOrder order depotId = order) ∧
      (order = [] → normalizeOrder order depotId = order) ∧
      (order ≠ [] → depotId ∉ order →
        normalizeOrder order depotId = depotId :: order) := by
  refine ⟨?_, ?_, ?_⟩
  · intro hmem
    simp [normalizeOrder, hmem]
  · intro h
    subst h
    rfl
  · intro hne hmem
    cases order with
    | nil => exact absurd rfl hne
    | cons a t =>
      have ha : a ≠ depotId := by
        intro h
        exact hmem (h ▸ List.mem_cons_self a t)
      unfold normalizeOrder
      rw [if_pos ⟨by simp, by simp [ha]⟩, if_pos hmem]

/-- C1 witness: instantiates `normalizeOrder_cases` at a non-empty
order omitting the depot id. -/
theorem normalizeOrder_cases_witness :
    normalizeOrder ["b", "c"] "d" = "d" :: ["b", "c"] :=
  (normalizeOrder_cases ["b", "c"] "d").2.2 (by decide) (by decide)

/-! ### C2: route-result invalidation on stop-set changes -/

/-- C2 counterexample: starting from a state with one stop and a stored
route result, a completed import of one successfully geocoded order
changes the stop set (one stop is appended) yet leaves the route result
stored, contradicting the claim that every stop-set change sets the
route result to none. -/
theorem import_keeps_stale_route :
    let s : AppState := { locations := [locA], optimizedRoute := some dummyRoute }
    let s' := handleImportOrders s (Except.ok [ordSomchai])
      [GeocodeOutcome.success 7 8] idsFn
    s'.locations.length = 2 ∧ s'.optimizedRoute = some dummyRoute ∧
      s'.optimizedRoute ≠ none := by
  refine ⟨rfl, rfl, ?_⟩
  decide

/-- C2 (amended): adding a stop via map click (below the cap), removing
a stop and resetting all set the route result to none; a completed order
import, however, appends its stops while leaving the route result
exactly as it was. -/
theorem routeResult_invalidation (s : AppState) (coords : Coordinates)
    (newId id : String) (orders : List ParsedOrder)
    (outcomes : List GeocodeOutcome) (ids : Nat → String)
    (hcap : s.locations.length < 30) (hne : orders ≠ []) :
    (handleMapClick s coords newId).optimizedRoute = none ∧
      (handleRemoveLocation s id).optimizedRoute = none ∧
      (handleReset s).optimizedRoute = none ∧
      (handleImportOrders s (Except.ok orders) outcomes ids).optimizedRoute =
        s.optimizedRoute := by
  refine ⟨?_, rfl, rfl, ?_⟩
  · unfold handleMapClick
    rw [if_neg (by omega)]
  · cases orders with
    | nil => exact absurd rfl hne
    | cons o os => rfl

/-- C2 witness: instantiates `routeResult_invalidation` at a concrete
state below the cap and a one-order import. -/
theorem routeResult_invalidation_witness :
    (handleMapClick { locations := [locA], optimizedRoute := some dummyRoute }
        { lat := 9, lng := 9 } "n").optimizedRoute = none :=
  (routeResult_invalidation
    { locations := [locA], optimizedRoute := some dummyRoute }
    { lat := 9, lng := 9 } "n" "a" [ordSomchai] [GeocodeOutcome.failure] idsFn
    (by decide) (by decide)).1

/-! ### C4: the 30-stop cap -/

/-- C4 counterexample: from a state that already holds 30 stops, a
completed import of one successfully geocoded order yields 31 stops —
order import performs no cap check, contradicting the claim that every
stop-producing operation keeps the total at most 30. -/
theorem import_exceeds_cap :
    let s : AppState := { locations := List.replicate 30 locB }
    (handleImportOrders s (Except.ok [ordSomchai])
        [GeocodeOutcome.success 7 8] idsFn).locations.length = 31 := by
  rfl

/-- C4 (amended): adding a stop via map click when the count is 30 or
more leaves the stop list unchanged and surfaces a user-facing error,
for every prior stop configuration; but order import appends its stops
with no cap check, so the 30-stop bound holds
only for map-click adds. -/
theorem map_click_cap (s : AppState) (coords : Coordinates) (newId : String)
    (h : 30 ≤ s.locations.length) :
    (handleMapClick s coords newId).locations = s.locations ∧
      (handleMapClick s coords newId).error.isSome = true := by
  unfold handleMapClick
  rw [if_pos (by omega)]
  exact ⟨rfl, rfl⟩

/-- C4 witness: instantiates `map_click_cap` at a concrete 30-stop
state. -/
theorem map_click_cap_witness :
    (handleMapClick { locations := List.replicate 30 locB }
        { lat := 9, lng := 9 } "n").locations = List.replicate 30 locB :=
  (map_click_cap { locations := List.replicate 30 locB }
    { lat := 9, lng := 9 } "n" (by decide)).1

/-! ### C5 / C6: removal, renumbering and depot promotion -/

theorem renumber_getElem (xs : List DeliveryLocation)
    (h : ∀ l ∈ xs, l.isDepot = false) :
    ∀ (n i : Nat), (renumber n xs)[i]? = (xs[i]?).map (fun loc =>
      if jsStartsWith loc.name "จุดส่งสินค้า" then
        { loc with name := "จุดส่งสินค้า " ++ toString (n + i) }
      else loc) := by
  induction xs with
  | nil => intro n i; simp [renumber]
  | cons x xs ih =>
    intro n i
    cases i with
    | zero =>
      have hx : x.isDepot = false := h x (by simp)
      simp [renumber, hx]
    | succ i =>
      have hrec := ih (fun l hl => h l (by simp [hl])) (n + 1) i
      simp only [renumber, List.getElem?_cons_succ, hrec]
      rw [show n + 1 + i = n + (i + 1) by omega]

/-- C5 counterexample: with depot A plus auto-labeled stops B (index 1)
and C (index 2), removing B relabels C to index 1 — its zero-based
position in the full remaining list — not to 0, its position among
non-depot stops, contradicting the claim (and the spec's end-to-end
example, which expects label index 0 for C). -/
theorem remove_relabels_to_full_index :
    (removeLocation [locA, locB, locC] "b").map DeliveryLocation.name =
        ["คลังสินค้า (Start)", "จุดส่งสินค้า 1"] ∧
      (removeLocation [locA, locB, locC] "b").map DeliveryLocation.name ≠
        ["คลังสินค้า (Start)", "จุดส่งสินค้า 0"] := by
  constructor
  · rfl
  · decide

/-- C5 (amended): after every removal from a state whose head stop is
the depot, each surviving stop is relabeled to its zero-based position
in the FULL remaining list (depot included) exactly when its name
matches the auto pattern, and is left completely unchanged otherwise
(custom labels are never relabeled).  Removing a non-depot stop: the
depot keeps place 0 untouched, and the stop at full-list position
`i + 1` is the `i`-th survivor of the filter, relabeled to index
`i + 1`.  Removing the depot itself: the promoted first survivor takes
place 0 with the fixed depot label (it is skipped by the renumbering),
and the stop at full-list position `i + 1` is the `i`-th later
survivor, likewise relabeled to index `i + 1`. -/
theorem remove_renumber_positions (d : DeliveryLocation)
    (rest : List DeliveryLocation) (id : String)
    (hd : d.isDepot = true) (hrest : ∀ l ∈ rest, l.isDepot = false) :
    (d.id ≠ id →
      ((removeLocation (d :: rest) id)[0]? = some d) ∧
        ∀ i : Nat, (removeLocation (d :: rest) id)[i + 1]? =
          ((rest.filter (fun l => l.id != id))[i]?).map (fun loc =>
            if jsStartsWith loc.name "จุดส่งสินค้า" then
              { loc with name := "จุดส่งสินค้า " ++ toString (i + 1) }
            else loc)) ∧
      (d.id = id →
        ∀ f fs, rest.filter (fun l => l.id != id) = f :: fs →
          ((removeLocation (d :: rest) id)[0]? =
              some { f with isDepot := true, name := "คลังสินค้า (Start)" }) ∧
            ∀ i : Nat, (removeLocation (d :: rest) id)[i + 1]? =
              (fs[i]?).map (fun loc =>
                if jsStartsWith loc.name "จุดส่งสินค้า" then
                  { loc with name := "จุดส่งสินค้า " ++ toString (i + 1) }
                else loc)) := by
  constructor
  · intro hid
    have hmem : ∀ l ∈ rest.filter (fun l => l.id != id), l.isDepot = false :=
      fun l hl => hrest l (List.mem_of_mem_filter hl)
    have hrem : removeLocation (d :: rest) id =
        d :: renumber 1 (rest.filter (fun l => l.id != id)) := by
      simp only [removeLocation,
        List.filter_cons_of_pos (p := fun (l : DeliveryLocation) => l.id != id) (by simpa using hid)]
      rw [if_neg (by simp [hid])]
      simp [renumber, hd]
    rw [hrem]
    refine ⟨by simp, fun i => ?_⟩
    rw [List.getElem?_cons_succ, renumber_getElem _ hmem 1 i,
      show 1 + i = i + 1 by omega]
  · intro hid f fs hf
    have hmem : ∀ l ∈ fs, l.isDepot = false := by
      intro l hl
      have hlf : l ∈ rest.filter (fun l => l.id != id) := by
        rw [hf]
        exact List.mem_cons_of_mem f hl
      exact hrest l (List.mem_of_mem_filter hlf)
    have hrem : removeLocation (d :: rest) id =
        { f with isDepot := true, name := "คลังสินค้า (Start)" } ::
          renumber 1 fs := by
      have hcond : (d :: rest).filter (fun l => l.id != id) = f :: fs := by
        rw [List.filter_cons_of_neg (by simp [hid]), hf]
      simp only [removeLocation, hcond]
      rw [if_pos (by simp [hid])]
      simp [renumber, promoteHead]
    rw [hrem]
    refine ⟨by simp, fun i => ?_⟩
    rw [List.getElem?_cons_succ, renumber_getElem _ hmem 1 i,
      show 1 + i = i + 1 by omega]

/-- C5 witness: instantiates `remove_renumber_positions` at the
three-stop fixture state, removing the depot A: B is promoted with the
fixed depot label and C — the survivor at full-list position 1 — is
relabeled to index 1. -/
theorem remove_renumber_positions_witness :
    (removeLocation [locA, locB, locC] "a")[0 + 1]? =
      (([locC] : List DeliveryLocation)[0]?).map (fun loc =>
        if jsStartsWith loc.name "จุดส่งสินค้า" then
          { loc with name := "จุดส่งสินค้า " ++ toString (0 + 1) }
        else loc) :=
  ((remove_renumber_positions locA [locB, locC] "a" (by decide)
    (by decide)).2 rfl locB [locC] (by decide)).2 0

/-- C6: removing the depot (the head stop) while other stops remain
promotes exactly one stop — the earliest survivor — to depot, and its
name becomes the fixed depot label regardless of what it was; every
other remaining stop stays non-depot. -/
theorem depot_promotion (d f : DeliveryLocation)
    (rest fs : List DeliveryLocation)
    (_hd : d.isDepot = true) (hrest : ∀ l ∈ rest, l.isDepot = false)
    (hf : rest.filter (fun l => l.id != d.id) = f :: fs) :
    ∃ fs', removeLocation (d :: rest) d.id =
        { f with isDepot := true, name := "คลังสินค้า (Start)" } :: fs' ∧
      ∀ l ∈ fs', l.isDepot = false := by
  refine ⟨renumber 1 fs, ?_, ?_⟩
  · have hcond : (d :: rest).filter (fun l => l.id != d.id) = f :: fs := by
      rw [List.filter_cons_of_neg (by simp), hf]
    simp only [removeLocation, hcond]
    rw [if_pos (by simp)]
    simp [renumber, promoteHead]
  · apply renumber_isDepot_false
    intro l hl
    have hlf : l ∈ rest.filter (fun l => l.id != d.id) := by
      rw [hf]; exact List.mem_cons_of_mem f hl
    exact hrest l (List.mem_of_mem_filter hlf)

/-- C6 witness: instantiates `depot_promotion` at the three-stop fixture
state, removing the depot A; B is promoted and relabeled. -/
theorem depot_promotion_witness :
    ∃ fs', removeLocation [locA, locB, locC] "a" =
        { locB with isDepot := true, name := "คลังสินค้า (Start)" } :: fs' ∧
      ∀ l ∈ fs', l.isDepot = false :=
  depot_promotion locA locB [locB, locC] [locC] (by decide) (by decide)
    (by decide)

/-! ### C10: removal frame condition -/

/-- C10: a removal never changes any remaining stop's id, coordinates,
address, customerName, phoneNumber, zone or status — position by
position, the surviving list agrees on all those fields with the plain
filter of the original list; only `name` and `isDepot` may differ. -/
theorem remove_frame (locations : List DeliveryLocation) (id : String) :
    (removeLocation locations id).map frameFields =
      (locations.filter (fun l => l.id != id)).map frameFields := by
  simp only [removeLocation]
  rw [renumber_map_frameFields]
  split
  · cases locations.filter (fun l => l.id != id) with
    | nil => rfl
    | cons f fs => rfl
  · rfl

/-! ### C7: flattening legs with arrival markers -/

theorem specFlattenLegs_length (lls : List (List NavigationStep)) :
    ∀ n, (specFlattenLegs n lls).length =
      (lls.map List.length).sum + (lls.length - 1) := by
  induction lls with
  | nil => intro n; rfl
  | cons l rest ih =>
    intro n
    cases rest with
    | nil => simp [specFlattenLegs]
    | cons l' rest' =>
      simp only [specFlattenLegs, List.length_append, List.length_cons, ih]
      simp [List.map_cons, List.sum_cons]
      omega

theorem flattenAux_all_some :
    ∀ (ls : List (List OSRMStepRaw)) (idx : Nat),
      flattenAux (idx + ls.length) idx (ls.map (fun s => { steps := some s })) =
        specFlattenLegs (idx + 1) (ls.map (List.map translateStep))
  | [], idx => by simp [flattenAux, specFlattenLegs]
  | [l], idx => by
    simp [flattenAux, specFlattenLegs]
  | l :: l' :: rest, idx => by
    have ih := flattenAux_all_some (l' :: rest) (idx + 1)
    have htot : (idx + 1) + (l' :: rest).length = idx + (l :: l' :: rest).length := by
      simp
      omega
    rw [htot] at ih
    rw [List.map_cons, flattenAux, ih, if_pos (by simp)]
    simp [specFlattenLegs]

/-- C7: for a successful road-routing response in which every leg
carries a turn-step array, the flattened navigation sequence is exactly
the legs' translated steps in leg order with one synthetic arrival
marker (numbered from 1) between consecutive legs — hence its length is
the total number of translated steps plus `L - 1` markers. -/
theorem flatten_markers (legs : List (List OSRMStepRaw)) :
    flattenSteps (legs.map (fun s => { steps := some s })) =
        specFlattenLegs 1 (legs.map (List.map translateStep)) ∧
      (flattenSteps (legs.map (fun s => { steps := some s }))).length =
        ((legs.map (List.map translateStep)).map List.length).sum +
          (legs.length - 1) := by
  have h : flattenSteps (legs.map (fun s => { steps := some s })) =
      specFlattenLegs 1 (legs.map (List.map translateStep)) := by
    have := flattenAux_all_some legs 0
    simpa [flattenSteps] using this
  refine ⟨h, ?_⟩
  rw [h, specFlattenLegs_length]
  simp

/-! ### C8: optimization failure handling -/

/-- C8: with at least two stops, an optimization-call failure (including
a parse failure of its response) leaves the previously stored route
result untouched and surfaces an error message; on a successful
optimization response the route result is replaced, and a failure of the
road-geometry call (all mirrors down, `road = none`) is non-fatal — the
new result is still stored, just with empty geometry and steps. -/
theorem calculate_route_error_handling (s : AppState) (vt : String)
    (resp : Except String GeminiRouteResponse) (road : Option OSRMRoute)
    (h2 : 2 ≤ s.locations.length) :
    (∀ e, resp = Except.error e →
      (handleCalculateRoute s vt resp road).optimizedRoute = s.optimizedRoute ∧
        (handleCalculateRoute s vt resp road).error.isSome = true) ∧
      (∀ r, resp = Except.ok r → road = none →
        ∃ res, (handleCalculateRoute s vt resp road).optimizedRoute = some res ∧
          res.pathPolyline.getD [] = [] ∧
          res.navigationInstructions.getD [] = []) := by
  rcases hloc : s.locations with _ | ⟨l0, _ | ⟨l1, tl⟩⟩
  · rw [hloc] at h2; simp at h2
  · rw [hloc] at h2; simp at h2
  constructor
  · intro e he
    subst he
    unfold handleCalculateRoute
    rw [if_neg (by omega), hloc]
    unfold optimizeRouteWithGemini
    exact ⟨rfl, rfl⟩
  · intro r hr hroad
    subst hr
    subst hroad
    unfold handleCalculateRoute
    rw [if_neg (by omega), hloc]
    unfold optimizeRouteWithGemini
    refine ⟨_, rfl, ?_, ?_⟩ <;>
      · split <;> simp [fetchRouteData]

/-- C8 witness: instantiates `calculate_route_error_handling` at a
two-stop state with a failing optimization call. -/
theorem calculate_route_error_handling_witness :
    (handleCalculateRoute stateAB "กระบะตู้ทึบ"
        (Except.error "boom") none).optimizedRoute = some dummyRoute :=
  ((calculate_route_error_handling stateAB
    "กระบะตู้ทึบ" (Except.error "boom") none (by decide)).1
    "boom" rfl).1

/-! ### C9: startup with missing or corrupt persisted state -/

/-- C9: when the storage key is absent, or `JSON.parse` fails on
whatever was stored, both initializers fall back to the empty defaults —
an empty stop list and a null route result — without surfacing any
error. -/
theorem startup_defaults (savedData : Option String)
    (parse : String → Option PersistedData)
    (h : ∀ str, savedData = some str → parse str = none) :
    initLocations savedData parse = [] ∧
      initRoute savedData parse = none := by
  cases savedData with
  | none => exact ⟨rfl, rfl⟩
  | some str =>
    have hp := h str rfl
    simp [initLocations, initRoute, hp]

/-- C9 witness: instantiates `startup_defaults` at a stored string on
which parsing fails. -/
theorem startup_defaults_witness :
    initLocations (some "not json") (fun _ => none) = [] :=
  (startup_defaults (some "not json") (fun _ => none)
    (fun _ _ => rfl)).1

/-! ### C3: import with geocoding failures -/

theorem buildImportedStops_length (ids : Nat → String) (isFirst : Bool) :
    ∀ (i : Nat) (pairs : List (ParsedOrder × GeocodeOutcome)),
      (buildImportedStops ids isFirst i pairs).length =
        pairs.countP (fun p => ! p.2.isFailure) := by
  intro i pairs
  induction pairs generalizing i with
  | nil => rfl
  | cons p ps ih =>
    obtain ⟨o, oc⟩ := p
    cases oc <;>
      simp [buildImportedStops, List.countP_cons, ih (i + 1),
        GeocodeOutcome.isFailure]

theorem buildImportedStops_unresolved (ids : Nat → String) (isFirst : Bool)
    (pairs : List (ParsedOrder × GeocodeOutcome))
    (hzone : ∀ p ∈ pairs, p.1.zone ≠ "Unresolved") :
    ∀ i, (buildImportedStops ids isFirst i pairs).countP isUnresolvedStop =
      pairs.countP (fun p => p.2.isNoMatch) := by
  induction pairs with
  | nil => intro i; rfl
  | cons p ps ih =>
    intro i
    obtain ⟨o, oc⟩ := p
    have ho : o.zone ≠ "Unresolved" := hzone (o, oc) (by simp)
    have ihp := ih (fun q hq => hzone q (by simp [hq])) (i + 1)
    cases oc with
    | success lat lng =>
      simp [buildImportedStops, List.countP_cons, ihp,
        GeocodeOutcome.isNoMatch, isUnresolvedStop, ho]
    | noMatch r1 r2 =>
      simp [buildImportedStops, List.countP_cons, ihp,
        GeocodeOutcome.isNoMatch, isUnresolvedStop]
    | failure =>
      simp [buildImportedStops, ihp, GeocodeOutcome.isNoMatch]

theorem buildImportedStops_fallback_ok (ids : Nat → String) (isFirst : Bool)
    (pairs : List (ParsedOrder × GeocodeOutcome))
    (hzone : ∀ p ∈ pairs, p.1.zone ≠ "Unresolved")
    (hrand : ∀ p ∈ pairs, ∀ r1 r2, p.2 = GeocodeOutcome.noMatch r1 r2 →
      0 ≤ r1 ∧ r1 < 1 ∧ 0 ≤ r2 ∧ r2 < 1) :
    ∀ i, ∀ l ∈ buildImportedStops ids isFirst i pairs,
      isUnresolvedStop l = true →
        jsEndsWith l.name " (ไม่พบพิกัด)" = true ∧
        13.7563 ≤ l.coordinates.lat ∧ l.coordinates.lat ≤ 13.7663 ∧
        100.5018 ≤ l.coordinates.lng ∧ l.coordinates.lng ≤ 100.5118 := by
  induction pairs with
  | nil => intro i l hl; cases hl
  | cons p ps ih =>
    intro i l hl hunres
    obtain ⟨o, oc⟩ := p
    have ho : o.zone ≠ "Unresolved" := hzone (o, oc) (by simp)
    have ihp := ih (fun q hq => hzone q (by simp [hq]))
      (fun q hq => hrand q (by simp [hq]))
    cases oc with
    | success lat lng =>
      rcases List.mem_cons.mp hl with rfl | hl'
      · exact absurd (by simpa [isUnresolvedStop] using hunres) ho
      · exact ihp (i + 1) l hl' hunres
    | noMatch r1 r2 =>
      rcases List.mem_cons.mp hl with rfl | hl'
      · obtain ⟨h1, h2, h3, h4⟩ :=
          hrand (o, GeocodeOutcome.noMatch r1 r2) (by simp) r1 r2 rfl
        refine ⟨?_, ?_, ?_, ?_, ?_⟩
        · simp only [jsEndsWith, String.data_append,
            List.isSuffixOf_iff_suffix]
          exact List.suffix_append _ _
        · simp only
          nlinarith
        · simp only
          nlinarith
        · simp only
          nlinarith
        · simp only
          nlinarith
      · exact ihp (i + 1) l hl' hunres
    | failure =>
      exact ihp (i + 1) l (by simpa [buildImportedStops] using hl) hunres

theorem countP_zip_snd {α β : Type} (f : β → Bool) :
    ∀ (os : List α) (cs : List β), cs.length = os.length →
      (os.zip cs).countP (fun p => f p.2) = cs.countP f := by
  intro os
  induction os with
  | nil =>
    intro cs h
    cases cs with
    | nil => rfl
    | cons c cs => simp at h
  | cons o os ih =>
    intro cs h
    cases cs with
    | nil => simp at h
    | cons c cs =>
      simp only [List.zip_cons_cons, List.countP_cons, ih cs (by simpa using h)]

/-- C3 counterexample: an import of exactly one extracted order whose
geocoding call fails in transport (the `fetch` throws) appends NO stop
at all — the `catch` only logs — so with `N = 1` the import yields 0 new
stops, not `N` stops with one unresolved placeholder as claimed. -/
theorem import_transport_failure_drops_stop :
    (handleImportOrders { locations := [] } (Except.ok [ordSomchai])
        [GeocodeOutcome.failure] idsFn).locations = [] := by
  rfl

/-- C3 (amended): an import appends one stop per order whose geocoding
call did not throw — a thrown (transport-failure) call appends nothing,
so `N` orders with `k` thrown calls yield `N - k` stops; among the
appended stops, exactly the no-match outcomes produce unresolved stops
(zone forced to `Unresolved`), and every such stop carries the
unresolved name marker and a fallback coordinate at most 0.01 degrees
above the fixed reference point in both latitude and longitude. -/
theorem import_fallback (s : AppState) (orders : List ParsedOrder)
    (outcomes : List GeocodeOutcome) (ids : Nat → String)
    (hlen : outcomes.length = orders.length)
    (hzone : ∀ o ∈ orders, o.zone ≠ "Unresolved")
    (hrand : ∀ oc ∈ outcomes, ∀ r1 r2, oc = GeocodeOutcome.noMatch r1 r2 →
      0 ≤ r1 ∧ r1 < 1 ∧ 0 ≤ r2 ∧ r2 < 1)
    (hne : orders ≠ []) :
    (handleImportOrders s (Except.ok orders) outcomes ids).locations.length =
        s.locations.length + outcomes.countP (fun oc => ! oc.isFailure) ∧
      ((handleImportOrders s (Except.ok orders) outcomes ids).locations.drop
          s.locations.length).countP isUnresolvedStop =
        outcomes.countP GeocodeOutcome.isNoMatch ∧
      ∀ l ∈ (handleImportOrders s (Except.ok orders) outcomes ids).locations.drop
          s.locations.length, isUnresolvedStop l = true →
        jsEndsWith l.name " (ไม่พบพิกัด)" = true ∧
        13.7563 ≤ l.coordinates.lat ∧ l.coordinates.lat ≤ 13.7663 ∧
        100.5018 ≤ l.coordinates.lng ∧ l.coordinates.lng ≤ 100.5118 := by
  have hzip : ∀ p ∈ orders.zip outcomes, p.1.zone ≠ "Unresolved" := by
    intro p hp
    exact hzone p.1 (List.of_mem_zip hp).1
  have hrzip : ∀ p ∈ orders.zip outcomes, ∀ r1 r2,
      p.2 = GeocodeOutcome.noMatch r1 r2 →
      0 ≤ r1 ∧ r1 < 1 ∧ 0 ≤ r2 ∧ r2 < 1 := by
    intro p hp
    exact hrand p.2 (List.of_mem_zip hp).2
  have hout : (handleImportOrders s (Except.ok orders) outcomes ids).locations =
      s.locations ++ buildImportedStops ids (decide (s.locations.length = 0)) 0
        (orders.zip outcomes) := by
    cases orders with
    | nil => exact absurd rfl hne
    | cons o os => rfl
  rw [hout, List.length_append, List.drop_left]
  refine ⟨?_, ?_, ?_⟩
  · rw [buildImportedStops_length,
      countP_zip_snd (fun oc => ! oc.isFailure) orders outcomes hlen]
  · rw [buildImportedStops_unresolved _ _ _ hzip,
      countP_zip_snd (fun oc => oc.isNoMatch) orders outcomes hlen]
  · exact buildImportedStops_fallback_ok _ _ _ hzip hrzip 0

/-- C3 witness: instantiates `import_fallback` at a one-order import
whose geocoding returns no match, with jitter draw 1/2: one fallback
stop is appended. -/
theorem import_fallback_witness :
    (handleImportOrders { locations := [locA] } (Except.ok [ordSomchai])
        [GeocodeOutcome.noMatch (1/2) (1/2)] idsFn).locations.length = 2 := by
  have h := (import_fallback { locations := [locA] } [ordSomchai]
    [GeocodeOutcome.noMatch (1/2) (1/2)] idsFn rfl (by decide)
    (by
      intro oc hoc r1 r2 heq
      rw [List.mem_singleton] at hoc
      subst hoc
      cases heq
      norm_num)
    (by decide)).1
  simpa using h

end SmartRoute
